import Mathlib

/-!
Verification development for the SatelliteTracker repository
(`src/SatTracker.py`).  The Python program is shallowly embedded:

* Python strings are Lean `String`s; the fragments of `str.strip`,
  `str.lower`, `str.isdigit` and `int()` that the program exercises are
  modelled character by character via Unicode code points (`Char.toNat`).
  The character tables cover the code points used anywhere in this
  development: ASCII, the superscript digits U+00B9/U+00B2/U+00B3
  (Unicode `Numeric_Type=Digit`, accepted by `str.isdigit` but rejected
  by `int()`), and the Arabic-Indic digits U+0660..U+0669 (category `Nd`,
  accepted by both).
* JSON values are the inductive `Json`; the bodies returned by the HTTP
  layer are modelled as already-parsed `Option Json` (`none` = the body
  is not valid JSON, so `response.json()` raises).
* The `requests` transport, the skyfield propagator and the system clock
  are oracle parameters (`HttpRequest → HttpResult`,
  `Json → Json → Json → Except Unit Subpoint`), so theorems quantify over
  every behaviour of the external world.
* Real-valued coordinates are modelled as `ℚ`.
* File writing (`sat_map.save`) is modelled as an upsert on an
  association list of file names.
-/

/-- True for the ASCII whitespace characters stripped by Python
`str.strip()` (space, tab, newline, carriage return, vertical tab, form
feed); the model restricts Python's Unicode whitespace set to ASCII. -/
def isPySpace (c : Char) : Bool :=
  decide (c.toNat = 32 ∨ c.toNat = 9 ∨ c.toNat = 10 ∨ c.toNat = 13 ∨
    c.toNat = 11 ∨ c.toNat = 12)

/-- Python `str.strip()` on the underlying character list: drop leading
and trailing whitespace. -/
def stripList (l : List Char) : List Char :=
  ((l.dropWhile isPySpace).reverse.dropWhile isPySpace).reverse

/-- Python `str.strip()`. -/
def pyStrip (s : String) : String :=
  ⟨stripList s.toList⟩

/-- Python `str.lower` on one character, restricted to ASCII: uppercase
letters are shifted by 32, everything else is unchanged. -/
def pyLowerChar (c : Char) : Char :=
  if 65 ≤ c.toNat ∧ c.toNat ≤ 90 then Char.ofNat (c.toNat + 32) else c

/-- Python `str.lower()`. -/
def pyLower (s : String) : String :=
  ⟨s.toList.map pyLowerChar⟩

/-- Python `str.isdigit` on one character: true for characters with
Unicode property `Numeric_Type=Digit` or `Numeric_Type=Decimal`.  On the
code points used in this development these are the ASCII digits 48..57,
the superscripts U+00B2 (178), U+00B3 (179), U+00B9 (185), and the
Arabic-Indic digits 1632..1641. -/
def pyIsDigitChar (c : Char) : Bool :=
  decide ((48 ≤ c.toNat ∧ c.toNat ≤ 57) ∨ c.toNat = 178 ∨ c.toNat = 179 ∨
    c.toNat = 185 ∨ (1632 ≤ c.toNat ∧ c.toNat ≤ 1641))

/-- Python `str.isdigit()`: nonempty and every character is a digit. -/
def pyIsDigit (s : String) : Bool :=
  !s.toList.isEmpty && s.toList.all pyIsDigitChar

/-- The decimal value `int()` assigns to one character: defined exactly
on the category-`Nd` characters (ASCII digits and, among the code points
modelled here, the Arabic-Indic digits).  `none` means `int()` raises
`ValueError` on a string containing this character. -/
def pyDecDigitVal (c : Char) : Option Nat :=
  if 48 ≤ c.toNat ∧ c.toNat ≤ 57 then some (c.toNat - 48)
  else if 1632 ≤ c.toNat ∧ c.toNat ≤ 1641 then some (c.toNat - 1632)
  else none

/-- Python `int(s)` on the strings that reach it in `main` (already
stripped, sign-free): base-10 value when every character is a decimal
(`Nd`) digit, `none` (= `ValueError`) otherwise. -/
def pyInt (s : String) : Option Nat :=
  if s.toList = [] then none
  else
    s.toList.foldl
      (fun acc c =>
        match acc, pyDecDigitVal c with
        | some a, some d => some (a * 10 + d)
        | _, _ => none)
      (some 0)

/-- JSON values, as produced by `response.json()`. -/
inductive Json where
  | null : Json
  | bool (b : Bool) : Json
  | num (n : Int) : Json
  | str (s : String) : Json
  | arr (items : List Json) : Json
  | obj (fields : List (String × Json)) : Json

/-- Python truthiness of a JSON-derived value (`if tle_data:`): `None`,
`False`, `0`, `""`, `[]` and an empty dict are falsy. -/
def pyTruthy (j : Json) : Bool :=
  match j with
  | Json.null => false
  | Json.bool b => b
  | Json.num n => decide (n ≠ 0)
  | Json.str s => decide (s ≠ "")
  | Json.arr items => !items.isEmpty
  | Json.obj fields => !fields.isEmpty

/-- Python `d[key]` on a JSON value: `some` on a dict that has the key,
`none` otherwise (`KeyError` / `TypeError`, both caught by the caller). -/
def jsonGet (j : Json) (key : String) : Option Json :=
  match j with
  | Json.obj fields => fields.lookup key
  | _ => none

/-- Python `d.get(key, default)`. -/
def jsonGetD (j : Json) (key : String) (default : Json) : Json :=
  (jsonGet j key).getD default

/-- An HTTP request as assembled by `requests.get(url, headers=...,
timeout=..., verify=...)`. -/
structure HttpRequest where
  url : String
  headers : List (String × String)
  timeout : Nat
  verify : Bool
deriving DecidableEq

/-- What a `requests.get` call can come back with: a transport-level
connection error, a timeout, some other `RequestException`, or a
response carrying a status code and a body (modelled post-parse: `none`
means the body is not valid JSON, so `response.json()` raises). -/
inductive HttpResult where
  | connectionError : HttpResult
  | timeout : HttpResult
  | otherError : HttpResult
  | response (status : Nat) (jsonBody : Option Json) : HttpResult

/-- The fixed User-Agent string sent by `fetch_tle`. -/
def uaString : String :=
  "Mozilla/5.0 (Windows NT 10.0; Win64; x64) AppleWebKit/537.36 (KHTML, like Gecko) Chrome/58.0.3029.110 Safari/537.3"

/-- The one request `fetch_tle` issues for a given satellite id: the
templated URL, the two headers, `timeout=10`, `verify=False`. -/
def fetchRequest (satellite_id : Nat) : HttpRequest :=
  { url := "https://tle.ivanstanojevic.me/api/tle/" ++ toString satellite_id
    headers := [("User-Agent", uaString), ("Accept", "application/json")]
    timeout := 10
    verify := false }

/-- `fetch_tle` from `src/SatTracker.py`: issue the GET, then
`raise_for_status()` (which raises `HTTPError` exactly for status codes
in `[400, 600)`), then parse the body as JSON.  Every raised exception
(`HTTPError`, `ConnectionError`, `Timeout`, `RequestException`,
`JSONDecodeError`) is caught and turned into `none`. -/
def fetch_tle (http : HttpRequest → HttpResult) (satellite_id : Nat) :
    Option Json :=
  match http (fetchRequest satellite_id) with
  | HttpResult.connectionError => none
  | HttpResult.timeout => none
  | HttpResult.otherError => none
  | HttpResult.response status jsonBody =>
    if 400 ≤ status ∧ status < 600 then none
    else
      match jsonBody with
      | none => none
      | some tle_data => some tle_data

/-- A run of `n` spaces, for `json.dumps` indentation. -/
def pad (n : Nat) : String :=
  ⟨List.replicate n ' '⟩

/-- Escaping applied by `json.dumps` to string values (the backslash,
quote and newline cases; further control-character escapes are not
exercised by any string in this development). -/
def escapeJsonString (s : String) : String :=
  ⟨s.toList.foldr
    (fun c acc =>
      match c with
      | '\\' => '\\' :: '\\' :: acc
      | '"' => '\\' :: '"' :: acc
      | '\n' => '\\' :: 'n' :: acc
      | c => c :: acc)
    []⟩

/-- `json.dumps(value, indent=4)` at indentation level `ind`. -/
def dumpsVal : Json → Nat → String
  | Json.null, _ => "null"
  | Json.bool true, _ => "true"
  | Json.bool false, _ => "false"
  | Json.num n, _ => toString n
  | Json.str s, _ => "\"" ++ escapeJsonString s ++ "\""
  | Json.arr [], _ => "[]"
  | Json.arr items, ind =>
    "[\n" ++
      String.intercalate ",\n"
        (items.attach.map fun x => pad (ind + 4) ++ dumpsVal x.1 (ind + 4)) ++
      "\n" ++ pad ind ++ "]"
  | Json.obj [], _ => "\x7b\x7d"
  | Json.obj fields, ind =>
    "\x7b\n" ++
      String.intercalate ",\n"
        (fields.attach.map fun f =>
          pad (ind + 4) ++ "\"" ++ escapeJsonString f.1.1 ++ "\": " ++
            dumpsVal f.1.2 (ind + 4)) ++
      "\n" ++ pad ind ++ "\x7d"
termination_by j _ => sizeOf j
decreasing_by
  · simp_wf
    have h := List.sizeOf_lt_of_mem x.2
    omega
  · simp_wf
    obtain ⟨⟨k, v⟩, hf⟩ := f
    have h := List.sizeOf_lt_of_mem hf
    simp_all
    omega

/-- `json.dumps(tle_data, indent=4)` as printed by `main`. -/
def dumpsIndent4 (j : Json) : String :=
  dumpsVal j 0

/-- Python `repr` of a JSON-derived value (used by `str()` on dicts and
lists when they appear as a satellite name). -/
def pyRepr : Json → String
  | Json.null => "None"
  | Json.bool true => "True"
  | Json.bool false => "False"
  | Json.num n => toString n
  | Json.str s => "'" ++ s ++ "'"
  | Json.arr items =>
    "[" ++ String.intercalate ", " (items.attach.map fun x => pyRepr x.1) ++ "]"
  | Json.obj fields =>
    "\x7b" ++
      String.intercalate ", "
        (fields.attach.map fun f => "'" ++ f.1.1 ++ "': " ++ pyRepr f.1.2) ++
      "\x7d"
termination_by j => sizeOf j
decreasing_by
  · simp_wf
    have h := List.sizeOf_lt_of_mem x.2
    omega
  · simp_wf
    obtain ⟨⟨k, v⟩, hf⟩ := f
    have h := List.sizeOf_lt_of_mem hf
    simp_all
    omega

/-- Python `str()` of a JSON-derived value, as interpolated into the
f-strings of `main` and `create_map`. -/
def pyStr (j : Json) : String :=
  match j with
  | Json.str s => s
  | j => pyRepr j


/-- The sub-satellite point returned by skyfield's `geocentric.subpoint()`:
latitude and longitude in degrees and elevation in km (reals modelled as
rationals). -/
structure Subpoint where
  latitude : ℚ
  longitude : ℚ
  elevation : ℚ
deriving DecidableEq

/-- `calculate_satellite_position` from `src/SatTracker.py`.  The
skyfield pipeline (`EarthSatellite` construction, `load.timescale()`,
`ts.now()`, `satellite.at(t).subpoint()`) is the oracle `propagate`,
whose `Except.error` case stands for any exception it raises.  Key
extraction `tle_data['line1']` / `['line2']` / `['name']` raises
`KeyError` / `TypeError` when the key or dict is missing.  Every
exception is caught by the `except Exception` handler and becomes
`none`; on success the `(latitude, longitude)` pair is returned and the
elevation is dropped. -/
def calculate_satellite_position
    (propagate : Json → Json → Json → Except Unit Subpoint)
    (tle_data : Json) : Option (ℚ × ℚ) :=
  match jsonGet tle_data "line1", jsonGet tle_data "line2",
      jsonGet tle_data "name" with
  | some line1, some line2, some name =>
    match propagate line1 line2 name with
    | Except.ok subpoint => some (subpoint.latitude, subpoint.longitude)
    | Except.error _ => none
  | _, _, _ => none

/-- Floor of a rational (the denominator is positive, so flooring
division of numerator by denominator). -/
def ratFloor (q : ℚ) : Int :=
  Int.fdiv q.num q.den

/-- Round a rational to the nearest integer, ties to even — the rounding
used by Python's `format(x, '.2f')`. -/
def roundHalfEven (q : ℚ) : Int :=
  let f := ratFloor q
  let r := q - (f : ℚ)
  if r < 1 / 2 then f
  else if 1 / 2 < r then f + 1
  else if f % 2 = 0 then f else f + 1

/-- Python `f"{q:.2f}"` on the rational model of a float: the value
rounded to two decimal places, with a sign, at least one integer digit,
and exactly two fraction digits. -/
def format2f (q : ℚ) : String :=
  let n := roundHalfEven (q * 100)
  let a := n.natAbs
  (if n < 0 then "-" else "") ++ toString (a / 100) ++ "." ++
    (if a % 100 < 10 then "0" else "") ++ toString (a % 100)

/-- A child element added to the folium map: the labeled `folium.Marker`
pin or the `folium.CircleMarker` highlight. -/
inductive MapChild where
  | marker (location : ℚ × ℚ) (popup : String) (iconColor : String)
      (icon : String) : MapChild
  | circleMarker (location : ℚ × ℚ) (radius : Nat) (popup : String)
      (color : String) (fill : Bool) (fillColor : String) : MapChild
deriving DecidableEq

/-- The folium map document: center, zoom, and the children added to it
in order. -/
structure FoliumMap where
  location : ℚ × ℚ
  zoom_start : Nat
  children : List MapChild
deriving DecidableEq

/-- `create_map` from `src/SatTracker.py`: a map centered at the
position with `zoom_start=4`, a red info-sign `Marker` whose popup is
`f"{satellite_name}<br>Lat: {latitude:.2f}°, Lon: {longitude:.2f}°"`,
and a crimson filled `CircleMarker` of radius 10 whose popup is the
name.  The folium constructors in the model are pure, so the
`except` branch (returning `None` on a rendering fault) is represented
only by the `Option` codomain. -/
def create_map (latitude longitude : ℚ) (satellite_name : String) :
    Option FoliumMap :=
  some
    { location := (latitude, longitude)
      zoom_start := 4
      children :=
        [MapChild.marker (latitude, longitude)
          (satellite_name ++ "<br>Lat: " ++ format2f latitude ++ "°, Lon: " ++
            format2f longitude ++ "°")
          "red" "info-sign",
        MapChild.circleMarker (latitude, longitude) 10 satellite_name
          "crimson" true "crimson"] }

/-- The output file name `f"{satellite_id}_location_map.html"` computed
in `main`. -/
def mapFilename (satellite_id : Nat) : String :=
  toString satellite_id ++ "_location_map.html"

/-- The external world as seen by one loop iteration: the HTTP
transport, the propagation library (including the clock), and the
working directory used by `os.path.abspath`. -/
structure Env where
  http : HttpRequest → HttpResult
  propagate : Json → Json → Json → Except Unit Subpoint
  cwd : String

/-- How one iteration of the `while True` loop in `main` ends:
`prompting` (a `continue` or fall-through back to the prompt),
`terminated` (the `break` on "exit"), or `valueError` (an uncaught
`ValueError` from `int(user_input)` aborting the program). -/
inductive Outcome where
  | prompting : Outcome
  | terminated : Outcome
  | valueError : Outcome
deriving DecidableEq

/-- Observable effects of one iteration of the loop in `main`: how it
ended, the arguments of its `print` calls in order, the satellite ids
passed to `fetch_tle`, the `(filename, map)` pairs written by
`sat_map.save`, and the URLs passed to `webbrowser.open`. -/
structure IterResult where
  outcome : Outcome
  printed : List String
  fetchCalls : List Nat
  savedFiles : List (String × FoliumMap)
  openedUrls : List String

/-- The body of `main` from the line `satellite_id = int(user_input)`
on, for an input that already passed the digit check. -/
def afterParse (env : Env) (satellite_id : Nat) : IterResult :=
  match fetch_tle env.http satellite_id with
  | none =>
    { outcome := Outcome.prompting
      printed := ["Failed to retrieve TLE data.\n"]
      fetchCalls := [satellite_id], savedFiles := [], openedUrls := [] }
  | some tle_data =>
    if pyTruthy tle_data = false then
      { outcome := Outcome.prompting
        printed := ["Failed to retrieve TLE data.\n"]
        fetchCalls := [satellite_id], savedFiles := [], openedUrls := [] }
    else
      match calculate_satellite_position env.propagate tle_data with
      | none =>
        { outcome := Outcome.prompting
          printed := ["Failed to calculate satellite position."]
          fetchCalls := [satellite_id], savedFiles := [], openedUrls := [] }
      | some (latitude, longitude) =>
        let satellite_name :=
          pyStr (jsonGetD tle_data "name" (Json.str "Unknown Satellite"))
        match create_map latitude longitude satellite_name with
        | none =>
          { outcome := Outcome.prompting
            printed := ["Failed to create the map."]
            fetchCalls := [satellite_id], savedFiles := [], openedUrls := [] }
        | some sat_map =>
          { outcome := Outcome.prompting
            printed :=
              ["\nTLE Data Retrieved Successfully for " ++ satellite_name ++
                ":",
              dumpsIndent4 tle_data,
              "\nSatellite location map has been saved to " ++
                mapFilename satellite_id ++ "."]
            fetchCalls := [satellite_id]
            savedFiles := [(mapFilename satellite_id, sat_map)]
            openedUrls :=
              ["file://" ++ env.cwd ++ "/" ++ mapFilename satellite_id] }

/-- One iteration of the `while True` loop in `main`, applied to the raw
line returned by `input()`: strip, compare the lowercase form with
"exit", check `isdigit`, convert with `int`, then run the
fetch → calculate → render pipeline. -/
def mainStep (env : Env) (raw : String) : IterResult :=
  if pyLower (pyStrip raw) = "exit" then
    { outcome := Outcome.terminated
      printed := ["Exiting the program. Goodbye!"]
      fetchCalls := [], savedFiles := [], openedUrls := [] }
  else if pyIsDigit (pyStrip raw) = false then
    { outcome := Outcome.prompting
      printed := ["Invalid input. Please enter a numeric Satellite ID."]
      fetchCalls := [], savedFiles := [], openedUrls := [] }
  else
    match pyInt (pyStrip raw) with
    | none =>
      { outcome := Outcome.valueError, printed := []
        fetchCalls := [], savedFiles := [], openedUrls := [] }
    | some satellite_id => afterParse env satellite_id

/-- How a whole run of the loop on a finite stream of input lines ends:
still waiting at the prompt when the lines run out, exited normally via
"exit", or aborted by the uncaught `ValueError`. -/
inductive RunOutcome where
  | stillPrompting : RunOutcome
  | exited : RunOutcome
  | crashed : RunOutcome
deriving DecidableEq

/-- The `while True` loop of `main` over a finite list of input lines. -/
def runLoop (env : Env) : List String → RunOutcome
  | [] => RunOutcome.stillPrompting
  | s :: rest =>
    match (mainStep env s).outcome with
    | Outcome.prompting => runLoop env rest
    | Outcome.terminated => RunOutcome.exited
    | Outcome.valueError => RunOutcome.crashed

/-- Writing a file into a directory listing (association list of name
and content): overwrite the entry with the same name if present,
otherwise append a new entry.  Models `sat_map.save(map_filename)`. -/
def writeFile : List (String × String) → String → String →
    List (String × String)
  | [], name, content => [(name, content)]
  | (m, e) :: rest, name, content =>
    if m = name then (m, content) :: rest
    else (m, e) :: writeFile rest name content

/-- Reading a file back from the directory listing. -/
def lookupFile : List (String × String) → String → Option String
  | [], _ => none
  | (m, e) :: rest, name => if m = name then some e else lookupFile rest name

/-- Claim-side notion: an ASCII decimal digit `'0'..'9'`. -/
def isAsciiDigit (c : Char) : Bool :=
  decide (48 ≤ c.toNat ∧ c.toNat ≤ 57)

/-- Claim-side notion: the string is composed entirely of decimal
digits. -/
def allDecimalDigits (s : String) : Bool :=
  s.toList.all isAsciiDigit

/-- Claim-side notion: the integer obtained by parsing a decimal digit
string (base-10 value). -/
def decValue (s : String) : Nat :=
  s.toList.foldl (fun a c => a * 10 + (c.toNat - 48)) 0

/-- A baseline world for concrete runs: every request fails at the
transport and the propagator always raises. -/
def env0 : Env :=
  { http := fun _ => HttpResult.connectionError
    propagate := fun _ _ _ => Except.error ()
    cwd := "/work" }

/-- A world whose TLE service replies 200 with the empty JSON object. -/
def envEmptyObj : Env :=
  { http := fun _ => HttpResult.response 200 (some (Json.obj []))
    propagate := fun _ _ _ => Except.error ()
    cwd := "/work" }

theorem ratFloor_intCast (n : ℤ) : ratFloor ((n : ℚ)) = n := by
  unfold ratFloor
  rw [Rat.num_intCast, Rat.den_intCast]
  rcases n with (_ | m) | m <;> simp [Int.fdiv, Nat.div_one]

theorem roundHalfEven_intCast (n : ℤ) : roundHalfEven ((n : ℚ)) = n := by
  simp only [roundHalfEven, ratFloor_intCast, sub_self]
  rw [if_pos (by norm_num : (0 : ℚ) < 1 / 2)]

theorem digit_not_space {c : Char} (h : isAsciiDigit c = true) :
    isPySpace c = false := by
  have h1 := of_decide_eq_true h
  unfold isPySpace
  rw [decide_eq_false_iff_not]
  omega

theorem digit_isDigitChar {c : Char} (h : isAsciiDigit c = true) :
    pyIsDigitChar c = true := by
  have h1 := of_decide_eq_true h
  unfold pyIsDigitChar
  rw [decide_eq_true_iff]
  omega

theorem digitChar_lower_fix {c : Char} (h : pyIsDigitChar c = true) :
    pyLowerChar c = c := by
  have h1 := of_decide_eq_true h
  unfold pyLowerChar
  rw [if_neg]
  omega

theorem digitChar_lower_ne_e {c : Char} (h : pyIsDigitChar c = true) :
    pyLowerChar c ≠ 'e' := by
  have h1 := of_decide_eq_true h
  rw [digitChar_lower_fix h]
  intro he
  have h2 := congrArg Char.toNat he
  have h3 : Char.toNat 'e' = 101 := rfl
  omega

theorem dropWhile_space_eq_self {l : List Char}
    (h : ∀ c ∈ l, isPySpace c = false) : l.dropWhile isPySpace = l := by
  cases l with
  | nil => rfl
  | cons c cs =>
    rw [List.dropWhile_cons, if_neg]
    simp [h c (List.mem_cons_self c cs)]

theorem stripList_of_digits {l : List Char}
    (h : ∀ c ∈ l, isAsciiDigit c = true) : stripList l = l := by
  unfold stripList
  rw [dropWhile_space_eq_self (fun c hc => digit_not_space (h c hc)),
    dropWhile_space_eq_self
      (fun c hc => digit_not_space (h c (List.mem_reverse.mp hc))),
    List.reverse_reverse]

theorem pyStrip_of_digits {s : String}
    (h : ∀ c ∈ s.toList, isAsciiDigit c = true) : pyStrip s = s := by
  have h2 : stripList s.toList = s.toList := stripList_of_digits h
  unfold pyStrip
  rw [h2]
  cases s
  rfl

theorem pyIsDigit_of_digits {s : String} (hne : s.toList ≠ [])
    (h : ∀ c ∈ s.toList, isAsciiDigit c = true) : pyIsDigit s = true := by
  unfold pyIsDigit
  rw [Bool.and_eq_true, List.all_eq_true]
  constructor
  · cases hl : s.toList with
    | nil => exact absurd hl hne
    | cons c cs => rfl
  · exact fun c hc => digit_isDigitChar (h c hc)

theorem pyLower_ne_exit_of_isdigit {s : String} (h : pyIsDigit s = true) :
    pyLower s ≠ "exit" := by
  unfold pyIsDigit at h
  rw [Bool.and_eq_true, List.all_eq_true] at h
  obtain ⟨hne, hall⟩ := h
  intro heq
  have hdata : s.toList.map pyLowerChar = "exit".toList := by
    have := congrArg String.toList heq
    exact this
  cases hl : s.toList with
  | nil => rw [hl] at hdata; exact absurd hdata.symm (by decide)
  | cons c cs =>
    rw [hl] at hdata
    have hc : pyLowerChar c = 'e' := by
      have : pyLowerChar c :: cs.map pyLowerChar = ['e', 'x', 'i', 't'] :=
        hdata
      exact (List.cons.injEq _ _ _ _ ▸ this).1
    exact digitChar_lower_ne_e (hall c (hl ▸ List.mem_cons_self c cs)) hc

theorem pyInt_foldl_of_digits (l : List Char) (a : Nat)
    (h : ∀ c ∈ l, isAsciiDigit c = true) :
    l.foldl
        (fun acc c =>
          match acc, pyDecDigitVal c with
          | some a, some d => some (a * 10 + d)
          | _, _ => none)
        (some a) =
      some (l.foldl (fun a c => a * 10 + (c.toNat - 48)) a) := by
  induction l generalizing a with
  | nil => rfl
  | cons c cs ih =>
    have hc := of_decide_eq_true (h c (List.mem_cons_self c cs))
    have hd : pyDecDigitVal c = some (c.toNat - 48) := by
      unfold pyDecDigitVal
      rw [if_pos hc]
    simp only [List.foldl_cons, hd]
    exact ih _ (fun c hc => h c (List.mem_cons_of_mem _ hc))

theorem pyInt_of_digits {s : String} (hne : s.toList ≠ [])
    (h : ∀ c ∈ s.toList, isAsciiDigit c = true) :
    pyInt s = some (decValue s) := by
  unfold pyInt decValue
  rw [if_neg hne]
  exact pyInt_foldl_of_digits s.toList 0 h

theorem afterParse_spec (env : Env) (satellite_id : Nat) :
    (afterParse env satellite_id).outcome = Outcome.prompting ∧
      (afterParse env satellite_id).fetchCalls = [satellite_id] := by
  cases hf : fetch_tle env.http satellite_id with
  | none => simp [afterParse, hf]
  | some tle =>
    cases ht : pyTruthy tle with
    | false => simp [afterParse, hf, ht]
    | true =>
      cases hc : calculate_satellite_position env.propagate tle with
      | none => simp [afterParse, hf, ht, hc]
      | some p =>
        obtain ⟨lat, lon⟩ := p
        simp [afterParse, hf, ht, hc, create_map]

theorem mainStep_of_exit (env : Env) (s : String)
    (h : pyLower (pyStrip s) = "exit") :
    mainStep env s =
      { outcome := Outcome.terminated
        printed := ["Exiting the program. Goodbye!"]
        fetchCalls := [], savedFiles := [], openedUrls := [] } := by
  unfold mainStep
  rw [if_pos h]

theorem mainStep_of_invalid (env : Env) (s : String)
    (h1 : pyLower (pyStrip s) ≠ "exit") (h2 : pyIsDigit (pyStrip s) = false) :
    mainStep env s =
      { outcome := Outcome.prompting
        printed := ["Invalid input. Please enter a numeric Satellite ID."]
        fetchCalls := [], savedFiles := [], openedUrls := [] } := by
  unfold mainStep
  rw [if_neg h1, if_pos h2]

theorem mainStep_of_parse_fail (env : Env) (s : String)
    (h1 : pyLower (pyStrip s) ≠ "exit") (h2 : pyIsDigit (pyStrip s) = true)
    (h3 : pyInt (pyStrip s) = none) :
    mainStep env s =
      { outcome := Outcome.valueError, printed := []
        fetchCalls := [], savedFiles := [], openedUrls := [] } := by
  unfold mainStep
  rw [if_neg h1, if_neg (by rw [h2]; exact fun hc => Bool.noConfusion hc), h3]

theorem mainStep_of_parse_ok (env : Env) (s : String) (n : Nat)
    (h1 : pyLower (pyStrip s) ≠ "exit") (h2 : pyIsDigit (pyStrip s) = true)
    (h3 : pyInt (pyStrip s) = some n) :
    mainStep env s = afterParse env n := by
  unfold mainStep
  rw [if_neg h1, if_neg (by rw [h2]; exact fun hc => Bool.noConfusion hc), h3]

theorem mainStep_outcome_terminated_iff (env : Env) (s : String) :
    (mainStep env s).outcome = Outcome.terminated ↔
      pyLower (pyStrip s) = "exit" := by
  constructor
  · intro h
    by_cases h1 : pyLower (pyStrip s) = "exit"
    · exact h1
    · exfalso
      by_cases h2 : pyIsDigit (pyStrip s) = false
      · rw [mainStep_of_invalid env s h1 h2] at h
        exact Outcome.noConfusion h
      · have h2' : pyIsDigit (pyStrip s) = true := by
          cases hb : pyIsDigit (pyStrip s) with
          | false => exact absurd hb h2
          | true => rfl
        cases h3 : pyInt (pyStrip s) with
        | none =>
          rw [mainStep_of_parse_fail env s h1 h2' h3] at h
          exact Outcome.noConfusion h
        | some n =>
          rw [mainStep_of_parse_ok env s n h1 h2' h3] at h
          rw [(afterParse_spec env n).1] at h
          exact Outcome.noConfusion h
  · intro h
    rw [mainStep_of_exit env s h]

theorem writeFile_keys_overwrite (fs : List (String × String))
    (name d1 d2 : String) :
    (writeFile (writeFile fs name d1) name d2).map Prod.fst =
      (writeFile fs name d2).map Prod.fst := by
  induction fs with
  | nil => simp [writeFile]
  | cons p rest ih =>
    obtain ⟨m, e⟩ := p
    by_cases hm : m = name
    · simp [writeFile, hm]
    · simp [writeFile, hm, ih]

theorem lookupFile_writeFile (fs : List (String × String))
    (name d : String) :
    lookupFile (writeFile fs name d) name = some d := by
  induction fs with
  | nil => simp [writeFile, lookupFile]
  | cons p rest ih =>
    obtain ⟨m, e⟩ := p
    by_cases hm : m = name
    · simp [writeFile, lookupFile, hm]
    · simp [writeFile, lookupFile, hm, ih]

/-- A TLE-shaped JSON object used as a concrete fixture. -/
def tleGood : Json :=
  Json.obj [("name", Json.str "ISS (ZARYA)"), ("line1", Json.str "1 25544U"),
    ("line2", Json.str "2 25544")]

/-- A propagation oracle that always succeeds at a fixed subpoint. -/
def propagateOk : Json → Json → Json → Except Unit Subpoint :=
  fun _ _ _ => Except.ok { latitude := 10, longitude := 20, elevation := 400 }

/-- Claim C1, counterexample: a final response with the non-2xx status
300 and a valid JSON body makes `fetch_tle` return the parsed value, not
an absent result — `raise_for_status` only raises for statuses in
`[400, 600)`, so "non-2xx HTTP status" is not a failure for this code. -/
theorem fetch_tle_non2xx_counterexample :
    fetch_tle (fun _ => HttpResult.response 300 (some (Json.str "body")))
        25544 =
      some (Json.str "body") ∧
    ¬ (200 ≤ 300 ∧ 300 ≤ 299) :=
  ⟨rfl, by decide⟩

/-- Claim C1, amended: `fetch_tle` returns a parsed value exactly when
the transport delivered a response whose status is outside `[400, 600)`
(the `raise_for_status` range) and whose body is valid JSON; on every
other outcome — connection error, timeout, other request error, 4xx/5xx
status, malformed JSON — it returns `none`, and no exception escapes
(the function is total into `Option`). -/
theorem fetch_tle_success_iff (http : HttpRequest → HttpResult)
    (satellite_id : Nat) (j : Json) :
    fetch_tle http satellite_id = some j ↔
      ∃ status,
        http (fetchRequest satellite_id) =
            HttpResult.response status (some j) ∧
          ¬ (400 ≤ status ∧ status < 600) := by
  cases hr : http (fetchRequest satellite_id) with
  | connectionError => simp [fetch_tle, hr]
  | timeout => simp [fetch_tle, hr]
  | otherError => simp [fetch_tle, hr]
  | response status body =>
    by_cases hs : 400 ≤ status ∧ status < 600
    · cases body with
      | none => simp [fetch_tle, hr, hs]
      | some j' => simp [fetch_tle, hr, hs]
    · cases body with
      | none => simp [fetch_tle, hr, hs]
      | some j' =>
        simp only [fetch_tle, hr, if_neg hs, Option.some.injEq,
          HttpResult.response.injEq]
        constructor
        · intro h
          exact ⟨status, ⟨rfl, h⟩, hs⟩
        · rintro ⟨st, ⟨hst, hj⟩, hn⟩
          exact hj
  
/-- Claim C2, counterexample: the input "²" (U+00B2, a character that is
not a decimal digit but satisfies Python's `str.isdigit`) is not "exit"
and is not composed of decimal digits, yet the loop does not print the
validation message and does not remain in the Prompting state: `int()`
raises an uncaught `ValueError`. -/
theorem validation_superscript_counterexample :
    pyLower (pyStrip "²") ≠ "exit" ∧
      allDecimalDigits (pyStrip "²") = false ∧
      (mainStep env0 "²").printed = [] ∧
      (mainStep env0 "²").outcome = Outcome.valueError := by
  decide

/-- Claim C2, amended: for every input whose trimmed form is not "exit"
(case-insensitively) and fails Python's `str.isdigit` check, the loop
prints the validation message, does not invoke the Fetcher, and remains
in the Prompting state.  (The original claim's "not composed entirely of
decimal digits" is wider than the code's `isdigit` check: inputs that
pass `isdigit` but are not decimal digits abort with a `ValueError`.) -/
theorem nondigit_input_prints_validation (env : Env) (s : String)
    (h1 : pyLower (pyStrip s) ≠ "exit")
    (h2 : pyIsDigit (pyStrip s) = false) :
    mainStep env s =
      { outcome := Outcome.prompting
        printed := ["Invalid input. Please enter a numeric Satellite ID."]
        fetchCalls := [], savedFiles := [], openedUrls := [] } :=
  mainStep_of_invalid env s h1 h2

/-- Witness for the amended claim C2 at the concrete input "hello". -/
theorem nondigit_input_prints_validation_witness :
    mainStep env0 "hello" =
      { outcome := Outcome.prompting
        printed := ["Invalid input. Please enter a numeric Satellite ID."]
        fetchCalls := [], savedFiles := [], openedUrls := [] } :=
  nondigit_input_prints_validation env0 "hello" (by decide) (by decide)

/-- Claim C3, confirmed: for every nonempty input composed of ASCII
decimal digits, the loop passes validation, invokes the Fetcher exactly
with the parsed base-10 integer of that string, the parse raises
nothing (the iteration ends back at the prompt, not in the `ValueError`
abort), and the iteration returns to Prompting. -/
theorem digit_input_invokes_fetcher (env : Env) (s : String)
    (h1 : s.toList ≠ [])
    (h2 : ∀ c ∈ s.toList, isAsciiDigit c = true) :
    (mainStep env s).fetchCalls = [decValue s] ∧
      (mainStep env s).outcome = Outcome.prompting := by
  have hstrip : pyStrip s = s := pyStrip_of_digits h2
  have hdig' : pyIsDigit s = true := pyIsDigit_of_digits h1 h2
  have hdig : pyIsDigit (pyStrip s) = true := by rw [hstrip]; exact hdig'
  have hexit : pyLower (pyStrip s) ≠ "exit" := by
    rw [hstrip]; exact pyLower_ne_exit_of_isdigit hdig'
  have hint : pyInt (pyStrip s) = some (decValue s) := by
    rw [hstrip]; exact pyInt_of_digits h1 h2
  rw [mainStep_of_parse_ok env s (decValue s) hexit hdig hint]
  exact ⟨(afterParse_spec env (decValue s)).2,
    (afterParse_spec env (decValue s)).1⟩

/-- Witness for claim C3 at the concrete input "25544". -/
theorem digit_input_invokes_fetcher_witness :
    (mainStep env0 "25544").fetchCalls = [25544] ∧
      (mainStep env0 "25544").outcome = Outcome.prompting := by
  have h := digit_input_invokes_fetcher env0 "25544" (by decide) (by decide)
  have hv : decValue "25544" = 25544 := by decide
  rw [hv] at h
  exact h

/-- Claim C4, confirmed: `calculate_satellite_position` is total into
`Option` (no exception reaches the CLI loop), and it returns a value
only when all three element fields were extracted and propagation
succeeded — contrapositively, any extraction or propagation failure
yields `none`. -/
theorem calculate_position_success_characterization
    (propagate : Json → Json → Json → Except Unit Subpoint)
    (tle_data : Json)
    (h : calculate_satellite_position propagate tle_data ≠ none) :
    ∃ line1 line2 name subpoint,
      jsonGet tle_data "line1" = some line1 ∧
      jsonGet tle_data "line2" = some line2 ∧
      jsonGet tle_data "name" = some name ∧
      propagate line1 line2 name = Except.ok subpoint ∧
      calculate_satellite_position propagate tle_data =
        some (subpoint.latitude, subpoint.longitude) := by
  cases h1 : jsonGet tle_data "line1" with
  | none => exact absurd (by simp [calculate_satellite_position, h1]) h
  | some line1 =>
    cases h2 : jsonGet tle_data "line2" with
    | none => exact absurd (by simp [calculate_satellite_position, h1, h2]) h
    | some line2 =>
      cases h3 : jsonGet tle_data "name" with
      | none =>
        exact absurd (by simp [calculate_satellite_position, h1, h2, h3]) h
      | some name =>
        cases hp : propagate line1 line2 name with
        | error e =>
          exact absurd
            (by simp [calculate_satellite_position, h1, h2, h3, hp]) h
        | ok subpoint =>
          exact ⟨line1, line2, name, subpoint, rfl, rfl, rfl, hp,
            by simp [calculate_satellite_position, h1, h2, h3, hp]⟩

/-- Witness for claim C4 at a concrete TLE object and oracle. -/
theorem calculate_position_success_characterization_witness :
    ∃ line1 line2 name subpoint,
      jsonGet tleGood "line1" = some line1 ∧
      jsonGet tleGood "line2" = some line2 ∧
      jsonGet tleGood "name" = some name ∧
      propagateOk line1 line2 name = Except.ok subpoint ∧
      calculate_satellite_position propagateOk tleGood =
        some (subpoint.latitude, subpoint.longitude) :=
  calculate_position_success_characterization propagateOk tleGood (by decide)

/-- Claim C5, confirmed: any input whose stripped, lowercased form is
"exit" makes the iteration terminate the loop, printing only the
goodbye line and invoking no Fetcher call, writing no file, opening no
browser. -/
theorem exit_input_terminates (env : Env) (s : String)
    (h : pyLower (pyStrip s) = "exit") :
    mainStep env s =
      { outcome := Outcome.terminated
        printed := ["Exiting the program. Goodbye!"]
        fetchCalls := [], savedFiles := [], openedUrls := [] } :=
  mainStep_of_exit env s h

/-- Witness for claim C5 at the concrete input " \t ExIt  ". -/
theorem exit_input_terminates_witness :
    mainStep env0 " \t ExIt  " =
      { outcome := Outcome.terminated
        printed := ["Exiting the program. Goodbye!"]
        fetchCalls := [], savedFiles := [], openedUrls := [] } :=
  exit_input_terminates env0 " \t ExIt  " (by decide)

/-- Claim C6, confirmed: for latitude 51.50, longitude -0.12 and name
"TestSat", `create_map` produces a document whose labeled pin's popup
text contains "Lat: 51.50°, Lon: -0.12°" (two decimal places), together
with a circular highlight marker at the same coordinate. -/
theorem create_map_testsat_popup_and_circle :
    ∃ popup,
      create_map (51.5 : ℚ) (-0.12 : ℚ) "TestSat" =
        some
          { location := ((51.5 : ℚ), (-0.12 : ℚ))
            zoom_start := 4
            children :=
              [MapChild.marker ((51.5 : ℚ), (-0.12 : ℚ)) popup "red"
                "info-sign",
              MapChild.circleMarker ((51.5 : ℚ), (-0.12 : ℚ)) 10 "TestSat"
                "crimson" true "crimson"] } ∧
      ∃ l r : String, popup = l ++ "Lat: 51.50°, Lon: -0.12°" ++ r := by
  have hlat : format2f (51.5 : ℚ) = "51.50" := by
    simp only [format2f]
    rw [show ((51.5 : ℚ) * 100) = (((5150 : ℤ) : ℚ)) from by norm_num,
      roundHalfEven_intCast]
    decide
  have hlon : format2f (-0.12 : ℚ) = "-0.12" := by
    simp only [format2f]
    rw [show ((-0.12 : ℚ) * 100) = (((-12 : ℤ) : ℚ)) from by norm_num,
      roundHalfEven_intCast]
    decide
  refine ⟨"TestSat" ++ "<br>Lat: " ++ "51.50" ++ "°, Lon: " ++ "-0.12" ++ "°",
    ?_, "TestSat<br>", "", ?_⟩
  · simp only [create_map, hlat, hlon]
  · decide

/-- Claim C7, confirmed: every fetch builds the one fixed request — the
templated URL ending in `/api/tle/{id}`, the JSON Accept header, the
fixed User-Agent, timeout 10, TLS verification disabled — and the result
of `fetch_tle` depends on the transport only through that single
request. -/
theorem fetch_request_fixed_shape (satellite_id : Nat) :
    (fetchRequest satellite_id).url =
        "https://tle.ivanstanojevic.me/api/tle/" ++ toString satellite_id ∧
      (fetchRequest satellite_id).headers =
        [("User-Agent", uaString), ("Accept", "application/json")] ∧
      (fetchRequest satellite_id).timeout = 10 ∧
      (fetchRequest satellite_id).verify = false ∧
      ∀ http http' : HttpRequest → HttpResult,
        http (fetchRequest satellite_id) = http' (fetchRequest satellite_id) →
          fetch_tle http satellite_id = fetch_tle http' satellite_id := by
  refine ⟨rfl, rfl, rfl, rfl, fun http http' h => ?_⟩
  unfold fetch_tle
  rw [h]

/-- Witness for claim C7 at id 25544 and two transports that agree on
the fetch request. -/
theorem fetch_request_fixed_shape_witness :
    (fetchRequest 25544).timeout = 10 ∧
      fetch_tle (fun _ => HttpResult.timeout) 25544 =
        fetch_tle (fun r =>
          if r.verify = false then HttpResult.timeout
          else HttpResult.otherError) 25544 :=
  ⟨(fetch_request_fixed_shape 25544).2.2.1,
    (fetch_request_fixed_shape 25544).2.2.2.2 _ _ rfl⟩

/-- Claim C8, confirmed: the output file name is computed
deterministically as `{identifier}_location_map.html`, and writing under
that name twice (two pipeline runs for the same identifier) leaves the
same set of file names as writing once — the second run overwrites, no
versioning, no accumulation — with the last content winning. -/
theorem map_filename_deterministic_overwrite (satellite_id : Nat)
    (fs : List (String × String)) (d1 d2 : String) :
    mapFilename satellite_id =
        toString satellite_id ++ "_location_map.html" ∧
      (writeFile (writeFile fs (mapFilename satellite_id) d1)
            (mapFilename satellite_id) d2).map Prod.fst =
        (writeFile fs (mapFilename satellite_id) d2).map Prod.fst ∧
      lookupFile
          (writeFile (writeFile fs (mapFilename satellite_id) d1)
            (mapFilename satellite_id) d2)
          (mapFilename satellite_id) = some d2 :=
  ⟨rfl,
    writeFile_keys_overwrite fs (mapFilename satellite_id) d1 d2,
    lookupFile_writeFile (writeFile fs (mapFilename satellite_id) d1)
      (mapFilename satellite_id) d2⟩

/-- Claim C9, counterexample: on the input sequence `["³"]` — no "exit"
token, and no stage is ever reached, so no stage failure — the loop
nevertheless terminates (the uncaught `ValueError` from `int("³")`
aborts the program), refuting "it terminates only on the explicit exit
token". -/
theorem loop_crash_counterexample :
    runLoop env0 ["³"] = RunOutcome.crashed ∧
      ∀ s ∈ (["³"] : List String), pyLower (pyStrip s) ≠ "exit" := by
  decide

/-- Claim C9, amended: the loop exits normally only when some input's
stripped lowercase form is "exit", and once an input passes the digit
check and integer conversion the iteration always returns to Prompting —
no stage failure (fetch, calculation, or rendering returning absent)
can end the loop.  (The only other way the loop can stop is the uncaught
`ValueError` abort on an input that passes `isdigit` but fails
`int()`.) -/
theorem loop_exit_only_and_stage_failures_return (env : Env)
    (inputs : List String) :
    (runLoop env inputs = RunOutcome.exited →
        ∃ s ∈ inputs, pyLower (pyStrip s) = "exit") ∧
      ∀ s n, pyIsDigit (pyStrip s) = true → pyInt (pyStrip s) = some n →
        (mainStep env s).outcome = Outcome.prompting := by
  constructor
  · induction inputs with
    | nil =>
      intro h
      exact RunOutcome.noConfusion h
    | cons s rest ih =>
      intro h
      cases ho : (mainStep env s).outcome with
      | prompting =>
        have hstep : runLoop env (s :: rest) = runLoop env rest := by
          simp [runLoop, ho]
        rw [hstep] at h
        obtain ⟨t, ht, he⟩ := ih h
        exact ⟨t, List.mem_cons_of_mem _ ht, he⟩
      | terminated =>
        exact ⟨s, List.mem_cons_self s rest,
          (mainStep_outcome_terminated_iff env s).mp ho⟩
      | valueError =>
        have hstep : runLoop env (s :: rest) = RunOutcome.crashed := by
          simp [runLoop, ho]
        rw [hstep] at h
        exact RunOutcome.noConfusion h
  · intro s n h2 h3
    have h1 : pyLower (pyStrip s) ≠ "exit" :=
      pyLower_ne_exit_of_isdigit h2
    rw [mainStep_of_parse_ok env s n h1 h2 h3]
    exact (afterParse_spec env n).1

/-- Witness for the amended claim C9: a run on `["exit"]` exits and its
exit token is in the input list; a parsed digit input returns to
Prompting even though every stage of `env0` fails. -/
theorem loop_exit_only_and_stage_failures_return_witness :
    (∃ s ∈ (["exit"] : List String), pyLower (pyStrip s) = "exit") ∧
      (mainStep env0 "7").outcome = Outcome.prompting :=
  ⟨(loop_exit_only_and_stage_failures_return env0 ["exit"]).1 (by decide),
    (loop_exit_only_and_stage_failures_return env0 ["exit"]).2 "7" 7
      (by decide) (by decide)⟩

/-- Claim C10, confirmed: when the Fetcher returns a successfully parsed
empty JSON object, the loop's `if tle_data:` truthiness test fails, so
the iteration prints "Failed to retrieve TLE data." and returns to
Prompting exactly as for an absent result. -/
theorem empty_object_fetch_treated_as_failure (env : Env) (s : String)
    (n : Nat) (h1 : pyIsDigit (pyStrip s) = true)
    (h2 : pyInt (pyStrip s) = some n)
    (h3 : fetch_tle env.http n = some (Json.obj [])) :
    (mainStep env s).printed = ["Failed to retrieve TLE data.\n"] ∧
      (mainStep env s).outcome = Outcome.prompting := by
  have hexit : pyLower (pyStrip s) ≠ "exit" :=
    pyLower_ne_exit_of_isdigit h1
  rw [mainStep_of_parse_ok env s n hexit h1 h2]
  constructor <;> simp [afterParse, h3, pyTruthy]

/-- Witness for claim C10 at input "42" against a transport that
answers 200 with the empty JSON object. -/
theorem empty_object_fetch_treated_as_failure_witness :
    (mainStep envEmptyObj "42").printed =
        ["Failed to retrieve TLE data.\n"] ∧
      (mainStep envEmptyObj "42").outcome = Outcome.prompting :=
  empty_object_fetch_treated_as_failure envEmptyObj "42" 42 (by decide)
    (by decide) rfl
